import Mathlib

/-!
Verification of the terminal session controller in
`src/components/terminal/terminal.ts`.

The controller is a single-threaded, event-driven class.  We embed its
session state and its keyboard-event handlers as pure functions on an
explicit state record.  DOM rendering is abstracted to a list of output
lines (text plus CSS class tag); `window.location.href = ...` inside a
`setTimeout(, 300)` is abstracted to appending a scheduled navigation
request `(destination, delay)`.

JavaScript string built-ins used by the source (`split(' ')`, `trim()`,
`toLowerCase()`, `startsWith`, `Array.join`) are modelled by
structurally recursive Lean functions (`jsSplit`, `jsTrim`, `jsToLower`,
`jsStartsWith`, `jsJoin`) so that all definitions evaluate inside the
kernel.  All strings in play are ASCII, where these agree with the
JavaScript semantics.

The membership test `if (this.pages[target])` is JavaScript property
access on a plain object literal, so it also finds the members inherited
from `Object.prototype` (`constructor`, `__proto__`, `toString`, ...),
all of which are truthy; `pagesGet` models the access including that
prototype chain, while `Object.keys(this.pages)` (listings, tab
completion) sees only the 12 own keys.
-/

namespace Terminal

/-- Model of JavaScript `String.prototype.split` with a single-character
separator: splits at every occurrence, keeping empty pieces, and returns
`[""]` on the empty string. -/
def jsSplitAux (sep : Char) : List Char → List Char → List String
  | [], acc => [String.mk acc.reverse]
  | c :: rest, acc =>
    if c = sep then String.mk acc.reverse :: jsSplitAux sep rest []
    else jsSplitAux sep rest (c :: acc)

def jsSplit (s : String) (sep : Char) : List String :=
  jsSplitAux sep s.data []

/-- Model of JavaScript `String.prototype.trim`: drop whitespace from both
ends. -/
def jsTrim (s : String) : String :=
  String.mk (((s.data.dropWhile Char.isWhitespace).reverse.dropWhile
    Char.isWhitespace).reverse)

/-- Model of JavaScript `String.prototype.toLowerCase` on ASCII input. -/
def jsToLower (s : String) : String :=
  String.mk (s.data.map Char.toLower)

def isPrefixOfList : List Char → List Char → Bool
  | [], _ => true
  | _ :: _, [] => false
  | a :: as, b :: bs => a = b && isPrefixOfList as bs

/-- Model of JavaScript `String.prototype.startsWith`. -/
def jsStartsWith (s pre : String) : Bool :=
  isPrefixOfList pre.data s.data

/-- Model of JavaScript `Array.prototype.join`. -/
def jsJoin (sep : String) : List String → String
  | [] => ""
  | [s] => s
  | s :: rest => s ++ sep ++ jsJoin sep rest

/-- Out-of-range indexing `this.history[i]` would yield `undefined`, which
stringifies to `"undefined"` when assigned to `input.value`.  (Reachable
states never hit the default, see `c3_history_cursor_invariant`.) -/
def jsIndexStr (l : List String) (i : Int) : String :=
  if h : 0 ≤ i ∧ i.toNat < l.length then l.get ⟨i.toNat, h.2⟩ else "undefined"

/-- One rendered output line: text content and CSS class tag
(`terminal-line ${className}` in `addOutput`). -/
structure Line where
  text : String
  cls : String
deriving DecidableEq, Repr

/-- The session state of one `Terminal` instance, plus the abstracted
observable effects.

* `history`, `historyIndex`, `currentPath`: the private fields of the class.
* `input`: the text of the `#terminal-input` field.
* `output`: the visible output log (`#terminal-output` children); emptied by
  `clear` via `output.innerHTML = ''`.
* `emitted`: ghost trace recording every `addOutput` call ever made, in
  order; `clear` empties `output` but appends nothing here.  This history
  variable lets us speak about lines being *emitted* even when the visible
  log is later erased.
* `navs`: scheduled navigation requests `(destination, delay)` issued via
  `setTimeout(() => window.location.href = ..., 300)`. -/
structure TermState where
  history : List String
  historyIndex : Int
  currentPath : String
  input : String
  output : List Line
  emitted : List Line
  navs : List (String × Nat)
deriving DecidableEq, Repr

/-- The `pages` record (insertion order preserved, as `Object.keys` does for
string keys). -/
def pages : List (String × String) :=
  [("about", "/about"),
   ("resume", "/resume"),
   ("projects", "/projects"),
   ("contact", "/contact"),
   ("blog", "/blog"),
   ("tools", "/tools"),
   ("templates", "/templates"),
   ("privacy", "/privacy"),
   ("terms", "/terms"),
   ("home", "/"),
   ("index", "/"),
   ("cheesecake", "/cheesecake")]

def assocLookup (k : String) : List (String × String) → Option String
  | [] => none
  | (a, v) :: rest => if k = a then some v else assocLookup k rest

/-- Own-key lookup in the `pages` table.  (Full property access, which
also walks the prototype chain, is `pagesGet` below.) -/
def pagesLookup (k : String) : Option String :=
  assocLookup k pages

/-- The own members of `Object.prototype`, visible through string-keyed
property access on a plain object literal; each is a function or an
object, hence truthy.  Only the all-lowercase names (`constructor`,
`__proto__`) are reachable through `handleCd`, which lowercases its
argument first. -/
def objectProtoMembers : List String :=
  ["constructor", "__defineGetter__", "__defineSetter__", "hasOwnProperty",
   "__lookupGetter__", "__lookupSetter__", "isPrototypeOf",
   "propertyIsEnumerable", "toString", "valueOf", "__proto__",
   "toLocaleString"]

/-- The JavaScript value read by `this.pages[k]`: an own (string)
property, a member inherited from `Object.prototype`, or `undefined`. -/
inductive JsValue where
  | str (s : String)
  | protoMember (name : String)
  | undef
deriving DecidableEq, Repr

/-- Property access `this.pages[k]` including the prototype chain: own
keys shadow, then the inherited `Object.prototype` members are found. -/
def pagesGet (k : String) : JsValue :=
  match pagesLookup k with
  | some v => JsValue.str v
  | none => if k ∈ objectProtoMembers then JsValue.protoMember k else JsValue.undef

/-- JavaScript truthiness of the accessed property: a string is truthy
iff non-empty; the inherited functions/objects are truthy; `undefined`
is falsy. -/
def jsTruthy : JsValue → Bool
  | JsValue.str s => s != ""
  | JsValue.protoMember _ => true
  | JsValue.undef => false

/-- String coercion applied when the accessed value is assigned to
`window.location.href`: strings unchanged; `pages.__proto__` is
`Object.prototype`, which stringifies to `[object Object]`; the other
inherited members are native functions printing as
`function <name>() \x7b [native code] \x7d` (the `constructor` is the
function `Object`); `undefined` stringifies to `"undefined"`. -/
def jsToHref : JsValue → String
  | JsValue.str s => s
  | JsValue.protoMember name =>
    if name = "__proto__" then "[object Object]"
    else if name = "constructor" then "function Object() \x7b [native code] \x7d"
    else "function " ++ name ++ "() \x7b [native code] \x7d"
  | JsValue.undef => "undefined"

/-- `Object.keys(this.pages).filter(p => p !== 'home' && p !== 'index')`,
computed inline at its three use sites in the source (`handleCd` error
branch, `handleLs`, `handleHelp`). -/
def filteredPages : List String :=
  (pages.map Prod.fst).filter (fun p => p != "home" && p != "index")

/-- `addOutput(text, className)`: append a line to the visible log (and to
the ghost emission trace). -/
def addOutput (text : String) (cls : String) (st : TermState) : TermState :=
  { st with
    output := st.output ++ [⟨text, cls⟩],
    emitted := st.emitted ++ [⟨text, cls⟩] }

/-- `addPrompt()` is a no-op: the prompt is a static fixture of the input
line. -/
def addPrompt (st : TermState) : TermState := st

@[simp] theorem addOutput_history (t c : String) (st : TermState) :
    (addOutput t c st).history = st.history := rfl

@[simp] theorem addOutput_historyIndex (t c : String) (st : TermState) :
    (addOutput t c st).historyIndex = st.historyIndex := rfl

@[simp] theorem addOutput_currentPath (t c : String) (st : TermState) :
    (addOutput t c st).currentPath = st.currentPath := rfl

@[simp] theorem addOutput_input (t c : String) (st : TermState) :
    (addOutput t c st).input = st.input := rfl

@[simp] theorem addOutput_navs (t c : String) (st : TermState) :
    (addOutput t c st).navs = st.navs := rfl

@[simp] theorem addOutput_output (t c : String) (st : TermState) :
    (addOutput t c st).output = st.output ++ [⟨t, c⟩] := rfl

@[simp] theorem addOutput_emitted (t c : String) (st : TermState) :
    (addOutput t c st).emitted = st.emitted ++ [⟨t, c⟩] := rfl

@[simp] theorem addPrompt_eq (st : TermState) : addPrompt st = st := rfl

/-- `handleCd(args)`. -/
def handleCd (args : List String) (st : TermState) : TermState :=
  if args.length = 0 then
    addPrompt (addOutput "~" "" { st with currentPath := "/" })
  else
    let target := jsToLower (args.headD "")
    if jsTruthy (pagesGet target) then
      let st1 := addOutput ("Navigating to " ++ target ++ "...") "" st
      { st1 with navs := st1.navs ++ [(jsToHref (pagesGet target), 300)] }
    else
      addPrompt (addOutput
        ("Available pages: " ++ jsJoin ", " filteredPages) ""
        (addOutput ("cd: no such page: " ++ target) "" st))

/-- `handleLs()`. -/
def handleLs (st : TermState) : TermState :=
  addPrompt (addOutput (jsJoin "  " filteredPages) "" st)

/-- `handleHelp()`. -/
def handleHelp (st : TermState) : TermState :=
  let st := addOutput "Available commands:" "" st
  let st := addOutput "  cd <page>     - Navigate to a page (e.g., cd resume)" "" st
  let st := addOutput "  ls            - List available pages" "" st
  let st := addOutput "  pwd           - Show current location" "" st
  let st := addOutput "  clear         - Clear terminal output" "" st
  let st := addOutput "  help          - Show this help message" "" st
  let st := addOutput "" "" st
  let st := addOutput "Available pages:" "" st
  addPrompt (addOutput ("  " ++ jsJoin ", " filteredPages) "" st)

/-- `handleClear()`: `this.output.innerHTML = ''`. -/
def handleClear (st : TermState) : TermState :=
  addPrompt { st with output := [] }

/-- `handlePwd()`. -/
def handlePwd (st : TermState) : TermState :=
  addPrompt (addOutput st.currentPath "" st)

/-- `handleCat(args)`. -/
def handleCat (args : List String) (st : TermState) : TermState :=
  if args.length = 0 then
    addPrompt (addOutput "Try: cat <filename>" ""
      (addOutput "cat: missing file operand" "" st))
  else
    addPrompt (addOutput
      ("cat: " ++ args.headD "" ++ ": No such file or directory") "" st)

/-- `executeCommand(command)` (the argument arrives already trimmed from
`handleKeyDown`). -/
def executeCommand (command : String) (st : TermState) : TermState :=
  if command = "" then
    addPrompt st
  else
    let st := { st with history := st.history ++ [command] }
    let st := addOutput ("visitor@marlonjr:~$ " ++ command) "command" st
    let parts := jsSplit command ' '
    let cmd := jsToLower (parts.headD "")
    let args := parts.tail
    if cmd = "cd" then handleCd args st
    else if cmd = "ls" then handleLs st
    else if cmd = "help" then handleHelp st
    else if cmd = "clear" then handleClear st
    else if cmd = "pwd" then handlePwd st
    else if cmd = "cat" then handleCat args st
    else addPrompt (addOutput
      ("Command not found: " ++ cmd ++ ". Type \"help\" for available commands.") "" st)

/-- Local values of `handleTabCompletion`: `input`, `parts`, `command`,
`arg = parts[1] || ''` and `matches`. -/
def tabParts (st : TermState) : List String :=
  jsSplit (jsTrim st.input) ' '

def tabCommand (st : TermState) : String :=
  (tabParts st).headD ""

def tabArg (st : TermState) : String :=
  (tabParts st).getD 1 ""

def tabMatches (st : TermState) : List String :=
  (pages.map Prod.fst).filter (fun page => jsStartsWith page (jsToLower (tabArg st)))

/-- `handleTabCompletion()`. -/
def handleTabCompletion (st : TermState) : TermState :=
  if tabCommand st = "cd" ∧ tabArg st ≠ "" then
    let ms := tabMatches st
    if ms.length = 1 then
      { st with input := "cd " ++ ms.headD "" }
    else if ms.length > 1 then
      addPrompt (addOutput (jsJoin "  " ms) "" st)
    else st
  else st

inductive Key where
  | enter
  | arrowUp
  | arrowDown
  | tab
deriving DecidableEq, Repr

/-- `handleKeyDown(e)` for the four specially handled keys. -/
def handleKeyDown (k : Key) (st : TermState) : TermState :=
  match k with
  | .enter =>
    let st1 := executeCommand (jsTrim st.input) st
    { st1 with input := "", historyIndex := -1 }
  | .arrowUp =>
    if st.history.length > 0 then
      let st1 :=
        if st.historyIndex = -1 then
          { st with historyIndex := (st.history.length : Int) }
        else st
      if st1.historyIndex > 0 then
        let st2 := { st1 with historyIndex := st1.historyIndex - 1 }
        { st2 with input := jsIndexStr st2.history st2.historyIndex }
      else st1
    else st
  | .arrowDown =>
    if st.historyIndex ≥ 0 then
      let st1 := { st with historyIndex := st.historyIndex + 1 }
      if st1.historyIndex ≥ (st1.history.length : Int) then
        { st1 with historyIndex := -1, input := "" }
      else
        { st1 with input := jsIndexStr st1.history st1.historyIndex }
    else st
  | .tab => handleTabCompletion st

/-- The state right after `init()`: empty session state plus the three
welcome-banner lines. -/
def initState : TermState :=
  let st : TermState :=
    { history := [], historyIndex := -1, currentPath := "/", input := "",
      output := [], emitted := [], navs := [] }
  let st := addOutput "Welcome to Marlon Ausby Junior\x27s website!" "" st
  let st := addOutput "Type \"help\" to see available commands." "" st
  addOutput "" "" st

/-- User-facing events: one of the four specially handled keys, or editing
the input field (any other keystroke: default text-editing behavior). -/
inductive Event where
  | press (k : Key)
  | edit (s : String)

def stepEv (e : Event) (st : TermState) : TermState :=
  match e with
  | .press k => handleKeyDown k st
  | .edit s => { st with input := s }

def run (es : List Event) (st : TermState) : TermState :=
  es.foldl (fun s e => stepEv e s) st

/-- States reachable from the freshly initialized terminal by any sequence
of events. -/
inductive Reachable : TermState → Prop where
  | init : Reachable initState
  | step (e : Event) {st : TermState} : Reachable st → Reachable (stepEv e st)

/-! ### Frame lemmas for the command handlers -/

/-- A state transformer leaves `history` alone and only appends
plainly-styled (empty class) lines to the emission trace. -/
def EmitsPlain (f : TermState → TermState) : Prop :=
  ∀ st : TermState, ∃ L,
    (f st).history = st.history ∧
    (f st).emitted = st.emitted ++ L ∧
    ∀ l ∈ L, l.cls = ""

theorem handleCd_plain (args : List String) : EmitsPlain (handleCd args) := by
  intro st
  unfold handleCd
  split
  · exact ⟨[⟨"~", ""⟩], by simp, by simp, by simp⟩
  · dsimp only
    split
    · exact ⟨[⟨"Navigating to " ++ jsToLower (args.headD "") ++ "...", ""⟩],
        by simp, by simp, by simp⟩
    · exact ⟨[⟨"cd: no such page: " ++ jsToLower (args.headD ""), ""⟩,
        ⟨"Available pages: " ++ jsJoin ", " filteredPages, ""⟩],
        by simp, by simp, by simp⟩

theorem handleLs_plain : EmitsPlain handleLs := by
  intro st
  exact ⟨[⟨jsJoin "  " filteredPages, ""⟩], by simp [handleLs], by simp [handleLs], by simp⟩

theorem handleHelp_plain : EmitsPlain handleHelp := by
  intro st
  refine ⟨[⟨"Available commands:", ""⟩,
    ⟨"  cd <page>     - Navigate to a page (e.g., cd resume)", ""⟩,
    ⟨"  ls            - List available pages", ""⟩,
    ⟨"  pwd           - Show current location", ""⟩,
    ⟨"  clear         - Clear terminal output", ""⟩,
    ⟨"  help          - Show this help message", ""⟩,
    ⟨"", ""⟩,
    ⟨"Available pages:", ""⟩,
    ⟨"  " ++ jsJoin ", " filteredPages, ""⟩], ?_, ?_, ?_⟩ <;>
    simp [handleHelp]

theorem handleClear_plain : EmitsPlain handleClear := by
  intro st
  exact ⟨[], by simp [handleClear], by simp [handleClear], by simp⟩

theorem handlePwd_plain : EmitsPlain handlePwd := by
  intro st
  exact ⟨[⟨st.currentPath, ""⟩], by simp [handlePwd], by simp [handlePwd], by simp⟩

theorem handleCat_plain (args : List String) : EmitsPlain (handleCat args) := by
  intro st
  unfold handleCat
  split
  · exact ⟨[⟨"cat: missing file operand", ""⟩, ⟨"Try: cat <filename>", ""⟩],
      by simp, by simp, by simp⟩
  · exact ⟨[⟨"cat: " ++ args.headD "" ++ ": No such file or directory", ""⟩],
      by simp, by simp, by simp⟩

/-- Executing a non-empty command pushes exactly it onto `history`, emits
the echoed prompt line first (class `"command"`), and every further line
emitted by the dispatched handler carries the empty class. -/
theorem executeCommand_emits (c : String) (st : TermState) (hc : c ≠ "") :
    ∃ rest,
      (executeCommand c st).history = st.history ++ [c] ∧
      (executeCommand c st).emitted =
        st.emitted ++ [⟨"visitor@marlonjr:~$ " ++ c, "command"⟩] ++ rest ∧
      ∀ l ∈ rest, l.cls = "" := by
  unfold executeCommand
  rw [if_neg hc]
  dsimp only
  split
  · obtain ⟨L, h1, h2, h3⟩ := handleCd_plain ((jsSplit c ' ').tail)
      (addOutput ("visitor@marlonjr:~$ " ++ c) "command" { st with history := st.history ++ [c] })
    exact ⟨L, by simp [h1], by simp [h2], h3⟩
  · split
    · obtain ⟨L, h1, h2, h3⟩ := handleLs_plain
        (addOutput ("visitor@marlonjr:~$ " ++ c) "command" { st with history := st.history ++ [c] })
      exact ⟨L, by simp [h1], by simp [h2], h3⟩
    · split
      · obtain ⟨L, h1, h2, h3⟩ := handleHelp_plain
          (addOutput ("visitor@marlonjr:~$ " ++ c) "command" { st with history := st.history ++ [c] })
        exact ⟨L, by simp [h1], by simp [h2], h3⟩
      · split
        · obtain ⟨L, h1, h2, h3⟩ := handleClear_plain
            (addOutput ("visitor@marlonjr:~$ " ++ c) "command" { st with history := st.history ++ [c] })
          exact ⟨L, by simp [h1], by simp [h2], h3⟩
        · split
          · obtain ⟨L, h1, h2, h3⟩ := handlePwd_plain
              (addOutput ("visitor@marlonjr:~$ " ++ c) "command" { st with history := st.history ++ [c] })
            exact ⟨L, by simp [h1], by simp [h2], h3⟩
          · split
            · obtain ⟨L, h1, h2, h3⟩ := handleCat_plain ((jsSplit c ' ').tail)
                (addOutput ("visitor@marlonjr:~$ " ++ c) "command" { st with history := st.history ++ [c] })
              exact ⟨L, by simp [h1], by simp [h2], h3⟩
            · exact ⟨[⟨"Command not found: " ++ jsToLower ((jsSplit c ' ').headD "") ++
                ". Type \"help\" for available commands.", ""⟩], by simp, by simp, by simp⟩

/-! ### Claim theorems -/

/-- Claim C1: for every input string that is non-empty after trimming,
committing it with Enter appends exactly one entry to the command history,
namely the trimmed text, and emits exactly one echoed (class `"command"`)
output line, formatted `visitor@marlonjr:~$ <text>`; every other line
emitted during that command is not an echoed line.  (Emission is recorded
in the ghost trace `emitted`, which `clear` does not erase.) -/
theorem c1_enter_appends_history_and_echo (st : TermState)
    (h : jsTrim st.input ≠ "") :
    ∃ rest,
      (handleKeyDown Key.enter st).history = st.history ++ [jsTrim st.input] ∧
      (handleKeyDown Key.enter st).emitted =
        st.emitted ++ [⟨"visitor@marlonjr:~$ " ++ jsTrim st.input, "command"⟩] ++ rest ∧
      ∀ l ∈ rest, l.cls ≠ "command" := by
  obtain ⟨rest, h1, h2, h3⟩ := executeCommand_emits (jsTrim st.input) st h
  refine ⟨rest, ?_, ?_, ?_⟩
  · simpa [handleKeyDown] using h1
  · simpa [handleKeyDown] using h2
  · intro l hl
    rw [h3 l hl]
    decide

theorem c1_witness :
    jsTrim "ls" ≠ "" ∧
    ∃ rest,
      (handleKeyDown Key.enter { initState with input := "ls" }).history =
        initState.history ++ ["ls"] ∧
      (handleKeyDown Key.enter { initState with input := "ls" }).emitted =
        initState.emitted ++ [⟨"visitor@marlonjr:~$ ls", "command"⟩] ++ rest ∧
      ∀ l ∈ rest, l.cls ≠ "command" := by
  exact ⟨by decide, c1_enter_appends_history_and_echo { initState with input := "ls" } (by decide)⟩

/-- The C2 scenario: execute `ls`, `pwd`, `help` from a fresh terminal,
then press ArrowUp `ups` times followed by ArrowDown `downs` times. -/
def navScript (ups downs : Nat) : List Event :=
  [Event.edit "ls", Event.press Key.enter, Event.edit "pwd", Event.press Key.enter,
   Event.edit "help", Event.press Key.enter] ++
  List.replicate ups (Event.press Key.arrowUp) ++
  List.replicate downs (Event.press Key.arrowDown)

/-- Claim C2: from a fresh terminal, after executing `ls`, `pwd`, `help`,
three Ups show `help`, `pwd`, `ls`; a fourth Up stays at `ls`; three Downs
then show `pwd`, `help`, and finally the empty field with the cursor back
at the sentinel `-1`. -/
theorem c2_history_navigation :
    (run (navScript 0 0) initState).history = ["ls", "pwd", "help"] ∧
    (run (navScript 0 0) initState).historyIndex = -1 ∧
    (run (navScript 1 0) initState).input = "help" ∧
    (run (navScript 2 0) initState).input = "pwd" ∧
    (run (navScript 3 0) initState).input = "ls" ∧
    (run (navScript 4 0) initState).input = "ls" ∧
    (run (navScript 4 1) initState).input = "pwd" ∧
    (run (navScript 4 2) initState).input = "help" ∧
    (run (navScript 4 3) initState).input = "" ∧
    (run (navScript 4 3) initState).historyIndex = -1 := by
  decide

/-- Claim C7, counterexample: the route table's values are 11 distinct
destination paths, not 10 as claimed (the claim misses `/cheesecake`). -/
theorem c7_counterexample : ¬ (pages.map Prod.snd).dedup.length = 10 := by
  decide

/-- Claim C7 (amended): the route table has exactly 12 alias entries whose
values are exactly 11 distinct destination paths; exactly the two aliases
`home` and `index` map to the root path `/`, and exactly those two are the
aliases excluded from the key listings used by `ls`, `help`, and the
unknown-`cd` error message. -/
theorem c7_route_table_amended :
    pages.length = 12 ∧
    (pages.map Prod.snd).dedup.length = 11 ∧
    (pages.filter (fun e => e.snd == "/")).map Prod.fst = ["home", "index"] ∧
    (pages.map Prod.fst).filter (fun p => !(p != "home" && p != "index")) =
      ["home", "index"] ∧
    (∀ st : TermState, (handleLs st).emitted =
      st.emitted ++ [⟨jsJoin "  " filteredPages, ""⟩]) ∧
    (∀ st : TermState, (handleHelp st).emitted =
      st.emitted ++ [⟨"Available commands:", ""⟩,
        ⟨"  cd <page>     - Navigate to a page (e.g., cd resume)", ""⟩,
        ⟨"  ls            - List available pages", ""⟩,
        ⟨"  pwd           - Show current location", ""⟩,
        ⟨"  clear         - Clear terminal output", ""⟩,
        ⟨"  help          - Show this help message", ""⟩,
        ⟨"", ""⟩,
        ⟨"Available pages:", ""⟩,
        ⟨"  " ++ jsJoin ", " filteredPages, ""⟩]) ∧
    (∀ (st : TermState) (t : String), jsTruthy (pagesGet (jsToLower t)) = false →
      (handleCd [t] st).emitted =
        st.emitted ++ [⟨"cd: no such page: " ++ jsToLower t, ""⟩,
          ⟨"Available pages: " ++ jsJoin ", " filteredPages, ""⟩]) := by
  refine ⟨by decide, by decide, by decide, by decide, ?_, ?_, ?_⟩
  · intro st; simp [handleLs]
  · intro st; simp [handleHelp]
  · intro st t h
    simp [handleCd, h]

theorem c7_witness :
    jsTruthy (pagesGet (jsToLower "xyz")) = false ∧
    (handleCd ["xyz"] initState).emitted =
      initState.emitted ++ [⟨"cd: no such page: " ++ jsToLower "xyz", ""⟩,
        ⟨"Available pages: " ++ jsJoin ", " filteredPages, ""⟩] := by
  exact ⟨by decide, c7_route_table_amended.2.2.2.2.2.2 initState "xyz" (by decide)⟩

/-- Claim C8, counterexample: executing `clear` does not leave
`commandHistory` unchanged — per the universal command-execution contract
it appends the entry `"clear"` (here: from the fresh state with empty
history). -/
theorem c8_counterexample :
    (executeCommand "clear" initState).history ≠ initState.history := by
  decide

/-- Claim C8 (amended): executing `clear` in any state empties the output
log entirely while leaving `historyCursor`, the input field, the current
path and the scheduled navigations unchanged; `commandHistory` is
unchanged except for the standard append of the committed command `clear`
itself, so pressing Up afterwards still recalls the commands executed
before it. -/
theorem c8_clear_amended (st : TermState) :
    executeCommand "clear" st =
      { st with
        history := st.history ++ ["clear"],
        output := [],
        emitted := st.emitted ++ [⟨"visitor@marlonjr:~$ clear", "command"⟩] } := by
  rfl

/-- Claim C9: committing an input that trims to the empty string leaves
the command history, the visible output log, the emission trace and the
scheduled navigations all unchanged. -/
theorem c9_blank_input_noop (st : TermState) (h : jsTrim st.input = "") :
    (handleKeyDown Key.enter st).history = st.history ∧
    (handleKeyDown Key.enter st).output = st.output ∧
    (handleKeyDown Key.enter st).emitted = st.emitted ∧
    (handleKeyDown Key.enter st).navs = st.navs := by
  refine ⟨?_, ?_, ?_, ?_⟩ <;> simp [handleKeyDown, executeCommand, h, addPrompt]

theorem c9_witness :
    jsTrim "   " = "" ∧
    (handleKeyDown Key.enter { initState with input := "   " }).history =
      initState.history ∧
    (handleKeyDown Key.enter { initState with input := "   " }).output =
      initState.output := by
  have h := c9_blank_input_noop { initState with input := "   " } (by decide)
  exact ⟨by decide, h.1, h.2.1⟩

/-- Claim C4: Tab changes the state only when the first space-separated
token of the trimmed input is exactly `cd` and a second token is present;
in that case, with `M` the route-table keys starting with the lowercased
argument: a unique match rewrites the input field to `cd <match>`, zero
matches change nothing, and several matches emit one output line with the
matches double-space-joined, leaving the input field unchanged. -/
theorem c4_tab_contract (st : TermState) :
    (¬ (tabCommand st = "cd" ∧ tabArg st ≠ "") → handleTabCompletion st = st) ∧
    ((tabCommand st = "cd" ∧ tabArg st ≠ "") →
      ((tabMatches st).length = 1 →
        handleTabCompletion st = { st with input := "cd " ++ (tabMatches st).headD "" }) ∧
      ((tabMatches st).length = 0 → handleTabCompletion st = st) ∧
      ((tabMatches st).length > 1 →
        handleTabCompletion st =
          { st with
            output := st.output ++ [⟨jsJoin "  " (tabMatches st), ""⟩],
            emitted := st.emitted ++ [⟨jsJoin "  " (tabMatches st), ""⟩] })) := by
  constructor
  · intro h
    unfold handleTabCompletion
    rw [if_neg h]
  · intro h
    refine ⟨?_, ?_, ?_⟩ <;> intro hl <;> unfold handleTabCompletion <;>
      rw [if_pos h] <;> dsimp only
    · rw [if_pos hl]
    · rw [if_neg (by omega), if_neg (by omega)]
    · rw [if_neg (by omega), if_pos hl]
      simp [addOutput]

theorem c4_witness :
    (tabCommand { initState with input := "cd pro" } = "cd" ∧
      tabArg { initState with input := "cd pro" } ≠ "") ∧
    (tabMatches { initState with input := "cd pro" }).length = 1 ∧
    handleTabCompletion { initState with input := "cd pro" } =
      { initState with input := "cd projects" } := by
  refine ⟨by decide, by decide, ?_⟩
  exact ((c4_tab_contract { initState with input := "cd pro" }).2
    (by decide)).1 (by decide) |>.trans (by decide)

/-- Claim C5: executing `cd k` for a route-table key `k` (keys are
lowercase, so `k` is fixed by lowercasing) with destination `dest`
immediately emits `Navigating to k...` and schedules exactly one
navigation request, to `dest` after delay 300; nothing else changes
besides the history append and the echoed line. -/
theorem c5_cd_navigation (s k dest : String) (st : TermState)
    (hsplit : jsSplit s ' ' = ["cd", k])
    (hlow : jsToLower k = k)
    (hlook : pagesLookup k = some dest)
    (hdest : dest ≠ "") :
    executeCommand s st =
      { st with
        history := st.history ++ [s],
        output := st.output ++ [⟨"visitor@marlonjr:~$ " ++ s, "command"⟩,
          ⟨"Navigating to " ++ k ++ "...", ""⟩],
        emitted := st.emitted ++ [⟨"visitor@marlonjr:~$ " ++ s, "command"⟩,
          ⟨"Navigating to " ++ k ++ "...", ""⟩],
        navs := st.navs ++ [(dest, 300)] } := by
  have hs : s ≠ "" := by
    intro h
    rw [h] at hsplit
    simp [jsSplit, jsSplitAux] at hsplit
  unfold executeCommand
  rw [if_neg hs]
  dsimp only
  rw [hsplit]
  have hcd : jsToLower (["cd", k].headD "") = "cd" := rfl
  rw [hcd, if_pos rfl]
  unfold handleCd
  rw [if_neg (by simp)]
  dsimp only
  have hget : pagesGet k = JsValue.str dest := by
    unfold pagesGet
    rw [hlook]
  rw [show (["cd", k].tail).headD "" = k from rfl, hlow, hget]
  rw [if_pos (by simp [jsTruthy, hdest])]
  simp [addOutput, jsToHref]

theorem c5_witness :
    jsSplit "cd resume" ' ' = ["cd", "resume"] ∧
    pagesLookup "resume" = some "/resume" ∧
    executeCommand "cd resume" initState =
      { initState with
        history := ["cd resume"],
        output := initState.output ++ [⟨"visitor@marlonjr:~$ cd resume", "command"⟩,
          ⟨"Navigating to resume...", ""⟩],
        emitted := initState.emitted ++ [⟨"visitor@marlonjr:~$ cd resume", "command"⟩,
          ⟨"Navigating to resume...", ""⟩],
        navs := [("/resume", 300)] } := by
  refine ⟨by decide, by decide, ?_⟩
  exact (c5_cd_navigation "cd resume" "resume" "/resume" initState
    (by decide) (by decide) (by decide) (by decide)).trans (by decide)

/-- Claim C6 (code-bug evidence): the claim captures the intended
route-table contract, but the code violates it at the inherited
`Object.prototype` member names.  `constructor` is not a route-table
key, yet `this.pages['constructor']` finds the inherited truthy
`Object.prototype.constructor`, so `cd constructor` emits
`Navigating to constructor...` — not the claimed error listing — and
schedules a navigation (to the stringified `Object` constructor) after
delay 300; `cd __proto__` likewise navigates to `[object Object]`. -/
theorem c6_proto_chain_bug :
    pagesLookup "constructor" = none ∧
    (executeCommand "cd constructor" initState).emitted =
      initState.emitted ++ [⟨"visitor@marlonjr:~$ cd constructor", "command"⟩,
        ⟨"Navigating to constructor...", ""⟩] ∧
    (executeCommand "cd constructor" initState).navs =
      [("function Object() \x7b [native code] \x7d", 300)] ∧
    pagesLookup "__proto__" = none ∧
    (executeCommand "cd __proto__" initState).navs =
      [("[object Object]", 300)] := by
  decide

/-! ### Reachability invariants -/

theorem handleTabCompletion_historyIndex (st : TermState) :
    (handleTabCompletion st).historyIndex = st.historyIndex := by
  unfold handleTabCompletion
  split
  · dsimp only
    split
    · rfl
    · split <;> simp
  · rfl

theorem handleTabCompletion_history (st : TermState) :
    (handleTabCompletion st).history = st.history := by
  unfold handleTabCompletion
  split
  · dsimp only
    split
    · rfl
    · split <;> simp
  · rfl

theorem handleCd_currentPath (args : List String) (st : TermState) :
    (handleCd args st).currentPath = st.currentPath ∨
      (handleCd args st).currentPath = "/" := by
  unfold handleCd
  split
  · right; simp
  · dsimp only
    split
    · left; simp
    · left; simp

theorem executeCommand_currentPath (c : String) (st : TermState) :
    (executeCommand c st).currentPath = st.currentPath ∨
      (executeCommand c st).currentPath = "/" := by
  unfold executeCommand
  split
  · left; rfl
  · dsimp only
    split
    · exact handleCd_currentPath _ _
    · split
      · left; simp [handleLs]
      · split
        · left; simp [handleHelp]
        · split
          · left; simp [handleClear]
          · split
            · left; simp [handlePwd]
            · split
              · left
                unfold handleCat
                split <;> simp
              · left; simp

theorem handleTabCompletion_currentPath (st : TermState) :
    (handleTabCompletion st).currentPath = st.currentPath := by
  unfold handleTabCompletion
  split
  · dsimp only
    split
    · rfl
    · split <;> simp
  · rfl

theorem stepEv_currentPath (e : Event) (st : TermState) :
    (stepEv e st).currentPath = st.currentPath ∨
      (stepEv e st).currentPath = "/" := by
  cases e with
  | edit s => left; rfl
  | press k =>
    cases k with
    | enter =>
      rcases executeCommand_currentPath (jsTrim st.input) st with h | h
      · left; simpa [stepEv, handleKeyDown] using h
      · right; simpa [stepEv, handleKeyDown] using h
    | arrowUp =>
      left
      dsimp [stepEv, handleKeyDown]
      split <;> [skip; rfl]
      split <;> split <;> simp
    | arrowDown =>
      left
      dsimp [stepEv, handleKeyDown]
      split <;> [skip; rfl]
      split <;> simp
    | tab => left; exact handleTabCompletion_currentPath st

theorem reachable_currentPath {st : TermState} (h : Reachable st) :
    st.currentPath = "/" := by
  induction h with
  | init => rfl
  | step e h ih =>
    rcases stepEv_currentPath e _ with h1 | h1
    · rw [h1, ih]
    · exact h1

/-- The history cursor of any reachable state is the sentinel `-1` or lies
in `[0, history.length]`. -/
theorem reachable_cursor {st : TermState} (h : Reachable st) :
    st.historyIndex = -1 ∨
      (0 ≤ st.historyIndex ∧ st.historyIndex ≤ (st.history.length : Int)) := by
  induction h with
  | init => left; rfl
  | step e h ih =>
    cases e with
    | edit s => simpa [stepEv] using ih
    | press k =>
      cases k with
      | enter => left; rfl
      | tab =>
        rw [stepEv, handleKeyDown, handleTabCompletion_historyIndex,
          handleTabCompletion_history]
        exact ih
      | arrowUp =>
        dsimp [stepEv, handleKeyDown]
        split_ifs <;> simp_all <;> omega
      | arrowDown =>
        dsimp [stepEv, handleKeyDown]
        split_ifs <;> simp_all
        omega

/-! ### Claim theorems about reachable states -/

/-- Claim C3: in every reachable state the history cursor is the sentinel
`-1` or an index in `[0, history.length]`, and whenever it equals
`history.length` the next ArrowDown resets it to the sentinel.
(Reachability here allows arbitrary edits of the input field between key
events, a superset of the claim's event alphabet.) -/
theorem c3_history_cursor_invariant (st : TermState) (h : Reachable st) :
    (st.historyIndex = -1 ∨
      (0 ≤ st.historyIndex ∧ st.historyIndex ≤ (st.history.length : Int))) ∧
    (st.historyIndex = (st.history.length : Int) →
      (handleKeyDown Key.arrowDown st).historyIndex = -1) := by
  refine ⟨reachable_cursor h, ?_⟩
  intro he
  dsimp [handleKeyDown]
  split_ifs <;> simp_all

theorem c3_witness :
    Reachable initState ∧
    ((initState.historyIndex = -1 ∨
      (0 ≤ initState.historyIndex ∧
        initState.historyIndex ≤ (initState.history.length : Int))) ∧
    (initState.historyIndex = (initState.history.length : Int) →
      (handleKeyDown Key.arrowDown initState).historyIndex = -1)) := by
  exact ⟨Reachable.init, c3_history_cursor_invariant initState Reachable.init⟩

/-- Claim C10: every reachable state has `currentPath = "/"` (it starts at
`/` and the only assignment, argumentless `cd`, writes `/` again), so
`pwd` emits the line `/` in every reachable state. -/
theorem c10_current_path_root (st : TermState) (h : Reachable st) :
    st.currentPath = "/" ∧
    (handlePwd st).output = st.output ++ [⟨"/", ""⟩] ∧
    (handlePwd st).emitted = st.emitted ++ [⟨"/", ""⟩] := by
  have hp := reachable_currentPath h
  refine ⟨hp, ?_, ?_⟩ <;> simp [handlePwd, hp]

theorem c10_witness :
    Reachable initState ∧
    initState.currentPath = "/" ∧
    (handlePwd initState).output = initState.output ++ [⟨"/", ""⟩] := by
  have h := c10_current_path_root initState Reachable.init
  exact ⟨Reachable.init, h.1, h.2.1⟩

end Terminal
